import Mathlib

/-!
Shallow embedding of the command-dispatch and charging-simulation engine of
the SE_Project repository (Python sources under `src/`).

Python floats are modelled as exact rationals (`ℚ`); the claims checked here
depend only on comparisons and exact breakpoint values, not on binary
floating-point rounding.  Timestamps (`datetime.now()`) are modelled as an
abstract `Nat` tick passed in by the caller.  Randomness (execution delay,
success draw, charging-location choice) is modelled by explicit oracle
arguments.  `ValueError` raising is modelled with `Except String` /
`Option String` results.
-/

namespace SEProject

/-- `models/enums.py` `LockStatus`. -/
inductive LockStatus where
  | locked
  | unlocked
deriving DecidableEq, Repr

/-- `models/enums.py` `SeatHeatLevel`. -/
inductive SeatHeatLevel where
  | off
  | low
  | medium
  | high
deriving DecidableEq, Repr

/-- Python `SeatHeatLevel(value)` enum construction: raises `ValueError`
for a string that is not one of the enum values. -/
def seatHeatLevelOfString (s : String) : Except String SeatHeatLevel :=
  if s = "off" then .ok .off
  else if s = "low" then .ok .low
  else if s = "medium" then .ok .medium
  else if s = "high" then .ok .high
  else .error (s ++ " is not a valid SeatHeatLevel")

/-- `models/enums.py` `CommandType`. -/
inductive CommandType where
  | lock
  | unlock
  | climate_on
  | climate_off
  | set_temp
  | seat_heat
  | steering_heat
  | defrost
  | trunk_open
  | frunk_open
  | honk_flash
deriving DecidableEq, Repr

/-- `models/enums.py` `CommandStatus`. -/
inductive CommandStatus where
  | pending
  | success
  | failed
  | timeout
deriving DecidableEq, Repr

/-- The loosely-typed `parameters: Dict[str, Any]` of a `RemoteCommand`,
restricted to the keys the dispatcher actually reads. `none` models the key
being absent from the dict. -/
structure CommandParams where
  target_temp : Option ℚ := none
  seat : Option String := none
  level : Option String := none
  position : Option String := none
  enabled : Option Bool := none
deriving DecidableEq, Repr

/-- `models/remote_command.py` `RemoteCommand` (UUIDs modelled as `Nat`). -/
structure RemoteCommand where
  command_id : Nat
  command_type : CommandType
  parameters : CommandParams := {}
  status : CommandStatus := .pending
  timestamp : Nat := 0
  response_time : Option Nat := none
  error_message : Option String := none
deriving DecidableEq, Repr

/-- `RemoteCommand.mark_success`. -/
def RemoteCommand.mark_success (c : RemoteCommand) (response_time_ms : Nat) :
    RemoteCommand :=
  { c with status := .success, response_time := some response_time_ms,
           error_message := none }

/-- `RemoteCommand.mark_failed`. -/
def RemoteCommand.mark_failed (c : RemoteCommand) (msg : String)
    (response_time_ms : Option Nat := none) : RemoteCommand :=
  { c with status := .failed, error_message := some msg,
           response_time := match response_time_ms with
                            | some t => some t
                            | none => c.response_time }

/-- `models/trunk_status.py` `TrunkStatus`. -/
structure TrunkStatus where
  front_trunk_open : Bool := false
  rear_trunk_open : Bool := false
deriving DecidableEq, Repr

/-- `models/climate_settings.py` `ClimateSettings`. -/
structure ClimateSettings where
  is_active : Bool := false
  target_temp_celsius : ℚ := 21
  front_left_seat_heat : SeatHeatLevel := .off
  front_right_seat_heat : SeatHeatLevel := .off
  rear_seat_heat : SeatHeatLevel := .off
  steering_wheel_heat : Bool := false
  front_defrost : Bool := false
  rear_defrost : Bool := false
  is_plugged_in : Bool := false
deriving DecidableEq, Repr

/-- Python `round(x, 2)` (rounding to 2 decimal places; Python rounds
half-to-even on floats, which differs from `round` only at exact midpoints
and is immaterial for the sign/monotonicity facts proved here). -/
def round2 (x : ℚ) : ℚ := (round (x * 100) : ℤ) / 100

/-- `ClimateSettings.set_temperature`: validates the 15–28 °C range,
raising `ValueError` outside it. -/
def ClimateSettings.set_temperature (cs : ClimateSettings) (t : ℚ) :
    Except String ClimateSettings :=
  if 15 ≤ t ∧ t ≤ 28 then .ok { cs with target_temp_celsius := t }
  else .error "Temperature out of range (15-28 C)"

/-- `ClimateSettings.estimate_battery_drain_per_10min`. -/
def ClimateSettings.estimate_battery_drain_per_10min (cs : ClimateSettings)
    (current_temp_celsius : ℚ) : ℚ :=
  if cs.is_active = false then 0
  else
    let temp_diff := |cs.target_temp_celsius - current_temp_celsius|
    let base_drain := min (temp_diff * 0.15) 2
    let seat_drain :=
      (if cs.front_left_seat_heat ≠ SeatHeatLevel.off then (0.2 : ℚ) else 0) +
      (if cs.front_right_seat_heat ≠ SeatHeatLevel.off then (0.2 : ℚ) else 0) +
      (if cs.rear_seat_heat ≠ SeatHeatLevel.off then (0.3 : ℚ) else 0) +
      (if cs.steering_wheel_heat then (0.15 : ℚ) else 0)
    let defrost_drain :=
      (if cs.front_defrost then (0.3 : ℚ) else 0) +
      (if cs.rear_defrost then (0.3 : ℚ) else 0)
    round2 (base_drain + seat_drain + defrost_drain)

/-- `models/vehicle_state.py` `VehicleState` (timestamps as `Nat`). -/
structure VehicleState where
  battery_soc : ℚ
  estimated_range_km : ℚ := 0
  lock_status : LockStatus := .unlocked
  cabin_temp_celsius : ℚ := 21
  climate_on : Bool := false
  last_updated : Nat := 0
  lock_timestamp : Option Nat := none
  climate_settings : ClimateSettings := {}
  trunk_status : TrunkStatus := {}
  is_plugged_in : Bool := false
  speed_mph : ℚ := 0
deriving DecidableEq, Repr

/-- `mocks/charging_mock.py` `_calculate_charging_rate`: the SoC-keyed
charging curve. -/
def calculateChargingRate (current_soc max_rate_kw : ℚ) : ℚ :=
  if current_soc < 20 then max_rate_kw
  else if current_soc < 80 then max_rate_kw * 0.95
  else if current_soc < 90 then max_rate_kw * 0.6
  else max_rate_kw * 0.3

/-- `services/command_queue.py` `CommandQueue`: a FIFO list of waiting
commands plus the single in-flight slot. -/
structure CommandQueue where
  queue : List RemoteCommand := []
  executing : Option RemoteCommand := none
deriving DecidableEq, Repr

/-- `CommandQueue.enqueue`. -/
def CommandQueue.enqueue (q : CommandQueue) (c : RemoteCommand) : CommandQueue :=
  { q with queue := q.queue ++ [c] }

/-- `CommandQueue.dequeue`: pops the head, or returns `none` leaving the
queue unchanged. -/
def CommandQueue.dequeue (q : CommandQueue) : Option RemoteCommand × CommandQueue :=
  match q.queue with
  | [] => (none, q)
  | c :: rest => (some c, { q with queue := rest })

/-- `CommandQueue.set_executing`. -/
def CommandQueue.set_executing (q : CommandQueue) (c : Option RemoteCommand) :
    CommandQueue :=
  { q with executing := c }

/-- `CommandQueue.is_empty`. -/
def CommandQueue.is_empty (q : CommandQueue) : Bool := q.queue.length = 0

/-- `CommandQueue.size`. -/
def CommandQueue.size (q : CommandQueue) : Nat := q.queue.length

/-- The waiting-list scan of `CommandQueue.remove_by_id`: deletes the first
command with the given id, reporting whether one was found. -/
def removeFirstById : List RemoteCommand → Nat → Bool × List RemoteCommand
  | [], _ => (false, [])
  | c :: rest, id =>
    if c.command_id = id then (true, rest)
    else
      let r := removeFirstById rest id
      (r.1, c :: r.2)

/-- `CommandQueue.remove_by_id`: refuses to remove the in-flight command
(returns `false` with the queue unchanged); otherwise deletes the first
waiting command with the given id. -/
def CommandQueue.remove_by_id (q : CommandQueue) (id : Nat) :
    Bool × CommandQueue :=
  match q.executing with
  | some e =>
    if e.command_id = id then (false, q)
    else
      let r := removeFirstById q.queue id
      (r.1, { q with queue := r.2 })
  | none =>
    let r := removeFirstById q.queue id
    (r.1, { q with queue := r.2 })

/-- `mocks/remote_command_mock.py` `_validate_command`: the state-based
pre-enqueue checks, in source order; the first failing check's `ValueError`
message is returned. -/
def validateCommand (vs : VehicleState) (c : RemoteCommand) :
    Except String Unit :=
  if (c.command_type = .climate_on ∨ c.command_type = .set_temp) ∧
      vs.battery_soc < 10 then
    .error "Battery too low (<10%) for climate control"
  else if c.command_type = .climate_on ∧ vs.climate_on = true then
    .error "Climate control is already on"
  else if c.command_type = .climate_off ∧ vs.climate_on = false then
    .error "Climate control is already off"
  else if (c.command_type = .trunk_open ∨ c.command_type = .frunk_open) ∧
      vs.speed_mph > 0 then
    .error "Cannot open trunk/frunk while vehicle is moving"
  else if c.command_type = .lock ∧ vs.lock_status = .locked then
    .error "Vehicle is already locked"
  else if c.command_type = .unlock ∧ vs.lock_status = .unlocked then
    .error "Vehicle is already unlocked"
  else .ok ()

/-- The body of the `try:` block of `_execute_command`, up to (but not
including) the climate-drain/`last_updated`/`mark_success` tail: applies the
type-specific mutations in source order.  Mutations performed before an
exception is raised remain applied (Python mutates the shared object in
place), so the partially-updated state is returned alongside the error. -/
def executeCommandCore (vs : VehicleState) (c : RemoteCommand) :
    VehicleState × Option String :=
  match c.command_type with
  | .lock => ({ vs with lock_status := .locked, lock_timestamp := some vs.last_updated }, none)
  | .unlock => ({ vs with lock_status := .unlocked, lock_timestamp := some vs.last_updated }, none)
  | .climate_on =>
    let vs1 := { vs with climate_on := true,
                         climate_settings.is_active := true }
    match c.parameters.target_temp with
    | some t =>
      match vs1.climate_settings.set_temperature t with
      | .ok cs => ({ vs1 with climate_settings := cs }, none)
      | .error e => (vs1, some e)
    | none => (vs1, none)
  | .climate_off =>
    ({ vs with climate_on := false, climate_settings.is_active := false }, none)
  | .set_temp =>
    match c.parameters.target_temp with
    | some t =>
      match vs.climate_settings.set_temperature t with
      | .ok cs => ({ vs with climate_settings := cs }, none)
      | .error e => (vs, some e)
    | none => (vs, none)
  | .seat_heat =>
    let seat := c.parameters.seat.getD "front_left"
    match seatHeatLevelOfString (c.parameters.level.getD "off") with
    | .error e => (vs, some e)
    | .ok lv =>
      if seat = "front_left" then
        ({ vs with climate_settings.front_left_seat_heat := lv }, none)
      else if seat = "front_right" then
        ({ vs with climate_settings.front_right_seat_heat := lv }, none)
      else if seat = "rear" then
        ({ vs with climate_settings.rear_seat_heat := lv }, none)
      else (vs, none)
  | .steering_heat =>
    let enabled := c.parameters.enabled.getD false
    ({ vs with climate_settings.steering_wheel_heat := enabled }, none)
  | .defrost =>
    let position := c.parameters.position.getD "front"
    let enabled := c.parameters.enabled.getD false
    if position = "front" then
      ({ vs with climate_settings.front_defrost := enabled }, none)
    else if position = "rear" then
      ({ vs with climate_settings.rear_defrost := enabled }, none)
    else (vs, none)
  | .trunk_open => ({ vs with trunk_status.rear_trunk_open := true }, none)
  | .frunk_open => ({ vs with trunk_status.front_trunk_open := true }, none)
  | .honk_flash => (vs, none)

/-- The CLIMATE_ON battery-drain tail of `_execute_command`: an immediate
drain of `estimate × (delay/1000)/600`, clamped below at 0. -/
def applyClimateDrain (vs : VehicleState) (delay_ms : Nat) : VehicleState :=
  let drain := vs.climate_settings.estimate_battery_drain_per_10min
    vs.cabin_temp_celsius
  let simulated_drain := drain * ((delay_ms : ℚ) / 1000) / 600
  { vs with battery_soc := max 0 (vs.battery_soc - simulated_drain) }

/-- `mocks/remote_command_mock.py` `_execute_command`: runs the mutation
branch inside `try`, then (still inside `try`) the CLIMATE_ON drain, the
`last_updated` refresh and `mark_success`; any caught exception instead
yields `mark_failed(str(e), delay_ms)` with the mutations made so far kept. -/
def executeCommand (vs : VehicleState) (c : RemoteCommand) (delay_ms : Nat)
    (now : Nat) : VehicleState × RemoteCommand :=
  match executeCommandCore vs c with
  | (vs1, some e) => (vs1, c.mark_failed e (some delay_ms))
  | (vs1, none) =>
    let vs2 := if c.command_type = .climate_on
               then applyClimateDrain vs1 delay_ms else vs1
    let vs3 := { vs2 with last_updated := now }
    (vs3, c.mark_success delay_ms)

/-- One execution attempt inside `_execute_next`: the success draw either
runs `_execute_command` or marks the command FAILED with the generic
simulated-failure message and the elapsed delay, leaving the state alone. -/
def executeOne (vs : VehicleState) (c : RemoteCommand) (delay_ms : Nat)
    (success : Bool) (now : Nat) : VehicleState × RemoteCommand :=
  if success then executeCommand vs c delay_ms now
  else (vs, c.mark_failed "Simulated failure" (some delay_ms))

/-- In-memory command history (`_command_history: Dict[UUID, RemoteCommand]`):
an association list keyed by command id.  `updateHistory` models both the
initial insert at submission and the in-place mutation the executing
dispatcher performs on the stored object. -/
def updateHistory (h : List (Nat × RemoteCommand)) (c : RemoteCommand) :
    List (Nat × RemoteCommand) :=
  match h with
  | [] => [(c.command_id, c)]
  | (k, v) :: rest =>
    if k = c.command_id then (k, c) :: rest
    else (k, v) :: updateHistory rest c

/-- Lookup in the command history (`_command_history.get`). -/
def lookupHistory (h : List (Nat × RemoteCommand)) (id : Nat) :
    Option RemoteCommand :=
  match h with
  | [] => none
  | (k, v) :: rest => if k = id then some v else lookupHistory rest id

/-- The whole mock command service (`RemoteCommandMockService`): the shared
vehicle state, the queue, and the history map.  `log` is ghost
instrumentation recording the ids of commands in the order their execution
begins; it exists only to state the FIFO ordering property. -/
structure EngineState where
  vehicle : VehicleState
  queue : CommandQueue := {}
  history : List (Nat × RemoteCommand) := []
  log : List Nat := []
deriving Repr

/-- `mocks/remote_command_mock.py` `_execute_next`: dequeue the head (return
if none), mark it executing, draw `(delay, success)` (modelled by the oracle
list), execute, clear the executing slot, record the outcome in the history,
and loop while the queue is non-empty. -/
def executeNext (oracle : List (Nat × Bool)) (now : Nat) (st : EngineState) :
    EngineState :=
  match hq : st.queue.queue with
  | [] => st
  | c :: rest =>
    let q1 : CommandQueue := CommandQueue.set_executing { st.queue with queue := rest } (some c)
    let draw := oracle.head?.getD (1000, true)
    let r := executeOne st.vehicle c draw.1 draw.2 now
    let st1 : EngineState :=
      { vehicle := r.1,
        queue := CommandQueue.set_executing q1 none,
        history := updateHistory st.history r.2,
        log := st.log ++ [c.command_id] }
    if st1.queue.is_empty then st1
    else executeNext (oracle.drop 1) now st1
termination_by st.queue.queue.length
decreasing_by simp [CommandQueue.set_executing, hq]

/-- `mocks/remote_command_mock.py` `send_command`: validate against the
current vehicle state (raising without enqueuing on violation), enqueue and
record the command, and drain the queue immediately when this command made
its size 1. -/
def sendCommand (oracle : List (Nat × Bool)) (now : Nat) (st : EngineState)
    (c : RemoteCommand) : Except String EngineState :=
  match validateCommand st.vehicle c with
  | .error e => .error e
  | .ok _ =>
    let st1 : EngineState :=
      { st with queue := st.queue.enqueue c,
                history := updateHistory st.history c }
    if st1.queue.size = 1 then .ok (executeNext oracle now st1)
    else .ok st1

/-- `models/charging_session.py` `ChargingSession` (timestamps as `Nat`,
`session_id` dropped: no claim mentions it). -/
structure ChargingSession where
  start_time : Nat
  start_soc : ℚ
  current_soc : ℚ
  target_soc : ℚ
  charging_rate_kw : ℚ
  voltage : ℚ
  amperage : ℚ
  location : String
  end_time : Option Nat := none
  energy_added_kwh : ℚ := 0
  cost : ℚ := 0
  is_active : Bool := true
deriving DecidableEq, Repr

/-- `ChargingSession.__post_init__` validation: constructing a session
raises `ValueError` when a SoC field is outside [0,100] or a rating is
negative. -/
def mkChargingSession (start_time : Nat) (start_soc current_soc target_soc
    charging_rate_kw voltage amperage : ℚ) (location : String) :
    Except String ChargingSession :=
  if ¬(0 ≤ start_soc ∧ start_soc ≤ 100) then
    .error "start_soc must be between 0 and 100"
  else if ¬(0 ≤ current_soc ∧ current_soc ≤ 100) then
    .error "current_soc must be between 0 and 100"
  else if ¬(0 ≤ target_soc ∧ target_soc ≤ 100) then
    .error "target_soc must be between 0 and 100"
  else if charging_rate_kw < 0 then
    .error "charging_rate_kw must be non-negative"
  else if voltage < 0 then
    .error "voltage must be non-negative"
  else if amperage < 0 then
    .error "amperage must be non-negative"
  else
    .ok { start_time := start_time, start_soc := start_soc,
          current_soc := current_soc, target_soc := target_soc,
          charging_rate_kw := charging_rate_kw, voltage := voltage,
          amperage := amperage, location := location }

/-- Python's `"Supercharger" in location` membership test. -/
def locationIsFast (location : String) : Bool :=
  (location.splitOn "Supercharger").length ≠ 1

/-- `mocks/charging_mock.py` `ChargingMockService` state: the shared
vehicle state, service configuration, the active-session slot, the
persisted session history (`charging_sessions.json`), and the stop event. -/
structure ChargingState where
  vehicle : VehicleState
  battery_capacity_kwh : ℚ := 82
  max_charging_rate_kw : ℚ := 250
  current_session : Option ChargingSession := none
  sessions_history : List ChargingSession := []
  stop_charging_flag : Bool := false
deriving DecidableEq, Repr

/-- `_save_session`: append the finalized session, keeping only the last
50 entries. -/
def saveSession (hist : List ChargingSession) (s : ChargingSession) :
    List ChargingSession :=
  let l := hist ++ [s]
  l.drop (l.length - 50)

/-- `mocks/charging_mock.py` `start_charging`: validate (plugged in, no
active session, `1 ≤ target ≤ 100`, `target > current SoC`), pick the
location (modelled as an explicit argument in place of `random.choice`),
build the session with the curve-derived initial rate, then set its
amperage from `rate·1000/voltage`, clear the stop flag and install the
session.  The background thread start is modelled by running
`simulateCharging` separately. -/
def start_charging (st : ChargingState) (target_soc : ℤ) (location : String)
    (now : Nat) : Except String (ChargingState × ChargingSession) :=
  if st.vehicle.is_plugged_in = false then
    .error "Vehicle must be plugged in to start charging"
  else if (match st.current_session with
           | some s => s.is_active
           | none => false) then
    .error "Charging session already active"
  else if ¬(1 ≤ target_soc ∧ target_soc ≤ 100) then
    .error "target_soc must be between 1 and 100"
  else if (target_soc : ℚ) ≤ st.vehicle.battery_soc then
    .error "target_soc must be greater than current SoC"
  else
    let is_fast_charging := locationIsFast location
    let max_rate : ℚ := if is_fast_charging then st.max_charging_rate_kw
                        else 11
    match mkChargingSession now st.vehicle.battery_soc
      st.vehicle.battery_soc (target_soc : ℚ)
      (calculateChargingRate st.vehicle.battery_soc max_rate)
      (if is_fast_charging then 400 else 240) 0 location with
    | .error e => .error e
    | .ok s0 =>
      let s := { s0 with amperage := s0.charging_rate_kw * 1000 / s0.voltage }
      .ok ({ st with current_session := some s,
                     stop_charging_flag := false }, s)

/-- The new battery SoC written by one charging-loop iteration: the curve
rate at the current SoC, converted through kWh/s and battery capacity to a
per-second SoC increment, clamped to the target. -/
def chargingNewSoc (capacity max_rate target soc : ℚ) : ℚ :=
  min target (soc + calculateChargingRate soc max_rate / 3600 / capacity * 100)

/-- One iteration body of `_simulate_charging`'s `while` loop (executed only
when the target has not been reached): recompute rate and amperage, advance
the shared `battery_soc` and the session's `current_soc` by one second of
charging, and accumulate energy and cost (at $0.35/kWh). -/
def tickState (st : ChargingState) (s : ChargingSession) : ChargingState :=
  let max_rate := if locationIsFast s.location then st.max_charging_rate_kw
                  else 11
  let current_rate := calculateChargingRate st.vehicle.battery_soc max_rate
  let kwh_per_second := current_rate / 3600
  let new_soc := chargingNewSoc st.battery_capacity_kwh max_rate s.target_soc
    st.vehicle.battery_soc
  let energy := s.energy_added_kwh + kwh_per_second
  let s1 : ChargingSession :=
    { s with charging_rate_kw := current_rate,
             amperage := current_rate * 1000 / s.voltage,
             current_soc := new_soc,
             energy_added_kwh := energy,
             cost := energy * 0.35 }
  { st with vehicle := { st.vehicle with battery_soc := new_soc },
            current_session := some s1 }

/-- The `while not stop_flag and current_session:` loop of
`_simulate_charging`, driven by fuel (one unit per 1-second tick; the real
loop runs unboundedly, so theorems quantify over sufficient fuel): breaks
with the stop flag set once the target is reached, otherwise ticks. -/
def simulateChargingLoop : Nat → ChargingState → ChargingState
  | 0, st => st
  | fuel + 1, st =>
    if st.stop_charging_flag then st
    else
      match st.current_session with
      | none => st
      | some s =>
        if st.vehicle.battery_soc ≥ s.target_soc then
          { st with stop_charging_flag := true }
        else simulateChargingLoop fuel (tickState st s)

/-- `mocks/charging_mock.py` `_simulate_charging`: run the loop, then the
auto-stop tail — if a session is present and the target is reached,
finalize it (`is_active := false`, `end_time := now`), persist it to the
history and clear the active-session slot. -/
def simulateCharging (fuel : Nat) (now : Nat) (st : ChargingState) :
    ChargingState :=
  let st1 := simulateChargingLoop fuel st
  match st1.current_session with
  | some s =>
    if st1.vehicle.battery_soc ≥ s.target_soc then
      let s1 := { s with is_active := false, end_time := some now }
      { st1 with current_session := none,
                 sessions_history := saveSession st1.sessions_history s1 }
    else st1
  | none => st1

/-- A vehicle state that satisfies every state-based validation rule. -/
def c4Vehicle : VehicleState := { battery_soc := 50 }

/-- Builder for a SET_TEMP command (as the `/api/vehicle/climate/temperature`
route builds it). -/
def setTempCmd (t : ℚ) : RemoteCommand :=
  { command_id := 7, command_type := .set_temp,
    parameters := { target_temp := some t } }

/-- Builder for a CLIMATE_ON command carrying a target temperature. -/
def climateOnCmd (t : ℚ) : RemoteCommand :=
  { command_id := 7, command_type := .climate_on,
    parameters := { target_temp := some t } }

/-- Builder for a SEAT_HEAT command. -/
def seatHeatCmd (seat lvl : String) : RemoteCommand :=
  { command_id := 7, command_type := .seat_heat,
    parameters := { seat := some seat, level := some lvl } }

/-- Builder for a DEFROST command. -/
def defrostCmd (pos : String) (en : Bool) : RemoteCommand :=
  { command_id := 7, command_type := .defrost,
    parameters := { position := some pos, enabled := some en } }

/-- A SET_TEMP command whose temperature parameter (50 °C) is far outside
the legal [15, 28] range. -/
def c4Cmd : RemoteCommand := setTempCmd 50

/-- `mocks/remote_command_mock.py` `cancel_command`: delegates to
`CommandQueue.remove_by_id`; the service state is otherwise untouched. -/
def cancelCommand (st : EngineState) (id : Nat) : Bool × EngineState :=
  let r := st.queue.remove_by_id id
  (r.1, { st with queue := r.2 })

/-- The in-flight command used by the cancellation witness. -/
def c9Exec : RemoteCommand := { command_id := 9, command_type := .unlock }

/-- An engine state whose queue is mid-execution of `c9Exec`. -/
def c9Engine : EngineState :=
  { vehicle := { battery_soc := 50 },
    queue := { queue := [], executing := some c9Exec } }

/-- The reachable vehicle states: any interleaving of command executions
(`_execute_next` attempts, successful or failed) and charging-loop SoC
writes.  A tick carries the facts the service guarantees at that point:
positive battery capacity (82 kWh by construction), nonnegative rated
power (250 or 11 kW), a target within 100 % (validated by `start_charging`
and `set_charge_limit`), and the loop guard `battery_soc < target_soc`
(the loop breaks before ticking otherwise). -/
inductive Reach : VehicleState → VehicleState → Prop where
  | refl (vs : VehicleState) : Reach vs vs
  | cmd (vs vs' : VehicleState) (c : RemoteCommand) (delay : Nat)
      (success : Bool) (now : Nat) (h : Reach vs vs') :
      Reach vs (executeOne vs' c delay success now).1
  | tick (vs vs' : VehicleState) (capacity max_rate target : ℚ)
      (h : Reach vs vs') (hcap : 0 < capacity) (hrate : 0 ≤ max_rate)
      (htgt : target ≤ 100) (hguard : vs'.battery_soc < target) :
      Reach vs
        { vs' with
                  battery_soc :=
                    chargingNewSoc capacity max_rate target vs'.battery_soc }

/-- The concrete charging-service state used by the `start_charging`
witness. -/
def c8State : ChargingState :=
  { vehicle := { battery_soc := 50, is_plugged_in := true } }

/-- The concrete charging-service state of the auto-completion witness:
plugged in at 79.8 % with the default 82 kWh / 250 kW configuration. -/
def c7State : ChargingState :=
  { vehicle := { battery_soc := 79.8, is_plugged_in := true } }

/-! ## Claim theorems -/

/-- C2: for every current SoC `s` and maximum rate `m ≥ 0`, the charging
curve returns `m` for `s < 20`, `0.95·m` on `[20,80)`, `0.6·m` on `[80,90)`
and `0.3·m` for `s ≥ 90`; in particular with `m = 250` it returns 250 at
SoC 10, 237.5 at 50, 150 at 85 and 75 at 95. -/
theorem charging_curve_exact (s m : ℚ) (hm : 0 ≤ m) :
    (s < 20 → calculateChargingRate s m = m) ∧
    (20 ≤ s ∧ s < 80 → calculateChargingRate s m = 0.95 * m) ∧
    (80 ≤ s ∧ s < 90 → calculateChargingRate s m = 0.6 * m) ∧
    (90 ≤ s → calculateChargingRate s m = 0.3 * m) ∧
    calculateChargingRate 10 250 = 250 ∧
    calculateChargingRate 50 250 = 237.5 ∧
    calculateChargingRate 85 250 = 150 ∧
    calculateChargingRate 95 250 = 75 := by
  refine ⟨fun h => ?_, fun h => ?_, fun h => ?_, fun h => ?_, ?_, ?_, ?_, ?_⟩ <;>
    simp only [calculateChargingRate]
  · rw [if_pos h]
  · rw [if_neg (by linarith [h.1]), if_pos h.2, mul_comm]
  · rw [if_neg (by linarith [h.1]), if_neg (by linarith [h.1]), if_pos h.2,
      mul_comm]
  · rw [if_neg (by linarith), if_neg (by linarith), if_neg (by linarith),
      mul_comm]
  · norm_num
  · norm_num
  · norm_num
  · norm_num

/-- Witness for `charging_curve_exact` at `s = 50`, `m = 250`. -/
theorem charging_curve_exact_witness :
    (0 : ℚ) ≤ 250 ∧ ((20 : ℚ) ≤ 50 ∧ (50 : ℚ) < 80 →
      calculateChargingRate 50 250 = 0.95 * 250) :=
  ⟨by norm_num, (charging_curve_exact 50 250 (by norm_num)).2.1⟩

/-- C10: whenever the climate settings' `is_active` flag is off, the
10-minute battery-drain estimate is exactly 0, for every cabin temperature
and regardless of any other setting. -/
theorem drain_zero_when_inactive (cs : ClimateSettings) (t : ℚ)
    (h : cs.is_active = false) :
    cs.estimate_battery_drain_per_10min t = 0 := by
  simp [ClimateSettings.estimate_battery_drain_per_10min, h]

/-- Witness for `drain_zero_when_inactive` on a fully-loaded but inactive
settings value. -/
theorem drain_zero_when_inactive_witness :
    ({ is_active := false, target_temp_celsius := 28,
       front_left_seat_heat := .high, front_right_seat_heat := .high,
       rear_seat_heat := .high, steering_wheel_heat := true,
       front_defrost := true, rear_defrost := true,
       is_plugged_in := true } : ClimateSettings).is_active = false ∧
    ({ is_active := false, target_temp_celsius := 28,
       front_left_seat_heat := .high, front_right_seat_heat := .high,
       rear_seat_heat := .high, steering_wheel_heat := true,
       front_defrost := true, rear_defrost := true,
       is_plugged_in := true } : ClimateSettings
      ).estimate_battery_drain_per_10min (-10) = 0 :=
  ⟨rfl, drain_zero_when_inactive _ (-10) rfl⟩

/-- C6: a command that passed validation but drew a simulated execution
failure is marked FAILED with the generic "Simulated failure" message and
the elapsed delay as its response time, and the shared vehicle state is
returned with no field changed. -/
theorem simulated_failure_no_mutation (vs : VehicleState) (c : RemoteCommand)
    (delay now : Nat) (h : validateCommand vs c = .ok ()) :
    (executeOne vs c delay false now).1 = vs ∧
    (executeOne vs c delay false now).2.status = .failed ∧
    (executeOne vs c delay false now).2.error_message =
      some "Simulated failure" ∧
    (executeOne vs c delay false now).2.response_time = some delay := by
  simp [executeOne, RemoteCommand.mark_failed]

/-- Witness for `simulated_failure_no_mutation`: a LOCK command on an
unlocked vehicle. -/
theorem simulated_failure_no_mutation_witness :
    validateCommand { battery_soc := 50 }
      { command_id := 1, command_type := .lock } = .ok () ∧
    (executeOne { battery_soc := 50 }
      { command_id := 1, command_type := .lock } 1500 false 9).1 =
      { battery_soc := 50 } :=
  ⟨rfl,
    (simulated_failure_no_mutation { battery_soc := 50 }
      { command_id := 1, command_type := .lock } 1500 9 rfl).1⟩

/-- C4 counterexample: submitting `c4Cmd` (SET_TEMP 50 °C) raises no
validation error — `send_command` accepts and enqueues it — and the
command ends up recorded in the history with the terminal status FAILED.
`_validate_command` has no temperature/seat/level/position checks (those
live only in the HTTP layer, `app.py`), contradicting both halves of the
claim. -/
theorem param_validation_counterexample :
    validateCommand c4Vehicle c4Cmd = Except.ok () ∧
    (sendCommand [(1000, true)] 5 { vehicle := c4Vehicle } c4Cmd).map
        (fun st' => (lookupHistory st'.history 7).map
          (fun c' => c'.status)) =
      Except.ok (some CommandStatus.failed) := by
  constructor
  · rfl
  · simp [sendCommand, c4Vehicle, c4Cmd, setTempCmd, validateCommand,
      CommandQueue.enqueue, CommandQueue.size, executeNext,
      CommandQueue.set_executing, CommandQueue.is_empty, executeOne,
      executeCommand, executeCommandCore, ClimateSettings.set_temperature,
      RemoteCommand.mark_failed, updateHistory, lookupHistory]
    rfl

/-- C4 amended: `send_command` performs no parameter validation at all.
A SET_TEMP or CLIMATE_ON whose temperature lies outside [15, 28] °C and a
SEAT_HEAT whose level string is not a valid heat level pass validation,
are enqueued, and are marked with the terminal status FAILED during
execution (by the caught `ValueError`); a SEAT_HEAT whose seat is not one
of front_left/front_right/rear (with a valid level) and a DEFROST whose
position is not front/rear pass validation and are marked SUCCESS while
changing no climate setting. -/
theorem param_validation_amended (vs : VehicleState) (temp : ℚ)
    (seat lvl pos : String) (d now : Nat) (en : Bool)
    (hsoc : 10 ≤ vs.battery_soc) (hclim : vs.climate_on = false)
    (htemp : temp < 15 ∨ 28 < temp)
    (hseat : seat ≠ "front_left" ∧ seat ≠ "front_right" ∧ seat ≠ "rear")
    (hlvl : lvl ≠ "off" ∧ lvl ≠ "low" ∧ lvl ≠ "medium" ∧ lvl ≠ "high")
    (hpos : pos ≠ "front" ∧ pos ≠ "rear") :
    (validateCommand vs (setTempCmd temp) = .ok () ∧
      (executeCommand vs (setTempCmd temp) d now).2.status = .failed) ∧
    (validateCommand vs (climateOnCmd temp) = .ok () ∧
      (executeCommand vs (climateOnCmd temp) d now).2.status = .failed) ∧
    (validateCommand vs (seatHeatCmd "front_left" lvl) = .ok () ∧
      (executeCommand vs (seatHeatCmd "front_left" lvl) d now).2.status =
        .failed) ∧
    (validateCommand vs (seatHeatCmd seat "low") = .ok () ∧
      (executeCommand vs (seatHeatCmd seat "low") d now).2.status =
        .success ∧
      (executeCommand vs (seatHeatCmd seat "low") d now).1.climate_settings =
        vs.climate_settings) ∧
    (validateCommand vs (defrostCmd pos en) = .ok () ∧
      (executeCommand vs (defrostCmd pos en) d now).2.status = .success ∧
      (executeCommand vs (defrostCmd pos en) d now).1.climate_settings =
        vs.climate_settings) := by
  have hnot : ¬vs.battery_soc < 10 := not_lt.mpr hsoc
  have htemp' : ¬(15 ≤ temp ∧ temp ≤ 28) := by
    rcases htemp with h | h
    · exact fun hc => absurd hc.1 (not_le.mpr h)
    · exact fun hc => absurd hc.2 (not_le.mpr h)
  refine ⟨⟨?_, ?_⟩, ⟨?_, ?_⟩, ⟨?_, ?_⟩, ⟨?_, ?_, ?_⟩, ⟨?_, ?_, ?_⟩⟩
  · simp [validateCommand, setTempCmd, hnot]
  · simp [executeCommand, executeCommandCore, setTempCmd,
      ClimateSettings.set_temperature, htemp', RemoteCommand.mark_failed]
  · simp [validateCommand, climateOnCmd, hnot, hclim]
  · simp [executeCommand, executeCommandCore, climateOnCmd,
      ClimateSettings.set_temperature, htemp', RemoteCommand.mark_failed]
  · simp [validateCommand, seatHeatCmd]
  · simp [executeCommand, executeCommandCore, seatHeatCmd,
      seatHeatLevelOfString, hlvl.1, hlvl.2.1, hlvl.2.2.1, hlvl.2.2.2,
      RemoteCommand.mark_failed]
  · simp [validateCommand, seatHeatCmd]
  · simp [executeCommand, executeCommandCore, seatHeatCmd,
      seatHeatLevelOfString, hseat.1, hseat.2.1, hseat.2.2,
      RemoteCommand.mark_success]
  · simp [executeCommand, executeCommandCore, seatHeatCmd,
      seatHeatLevelOfString, hseat.1, hseat.2.1, hseat.2.2]
  · simp [validateCommand, defrostCmd]
  · simp [executeCommand, executeCommandCore, defrostCmd, hpos.1, hpos.2,
      RemoteCommand.mark_success]
  · simp [executeCommand, executeCommandCore, defrostCmd, hpos.1, hpos.2]

/-- Witness for `param_validation_amended` at temperature 50 °C, seat
"driver", level "max", position "side". -/
theorem param_validation_amended_witness :
    ((10 : ℚ) ≤ 50 ∧ ((50 : ℚ) < 15 ∨ (28 : ℚ) < 50)) ∧
    (executeCommand c4Vehicle (setTempCmd 50) 1000 3).2.status = .failed :=
  ⟨⟨by norm_num, by norm_num⟩,
    (param_validation_amended c4Vehicle 50 "driver" "max" "side" 1000 3 true
      (by norm_num [c4Vehicle]) rfl (by norm_num)
      (by refine ⟨?_, ?_, ?_⟩ <;> decide)
      (by refine ⟨?_, ?_, ?_, ?_⟩ <;> decide)
      (by refine ⟨?_, ?_⟩ <;> decide)).1.2⟩

/-- `send_command` propagates exactly the `ValueError` of
`_validate_command`, and in that case the state is dropped unchanged. -/
lemma sendCommand_error_iff (oracle : List (Nat × Bool)) (now : Nat)
    (st : EngineState) (c : RemoteCommand) (e : String) :
    sendCommand oracle now st c = .error e ↔
      validateCommand st.vehicle c = .error e := by
  unfold sendCommand
  cases h : validateCommand st.vehicle c with
  | error e' => simp
  | ok u =>
    cases u
    split <;> simp_all
    split <;> simp

/-- C5: `send_command` raises a `ValueError` — returning it to the caller
with nothing enqueued and the engine state untouched (the `.error` result
carries no successor state) — precisely when one of the state-based rules
of `_validate_command` holds at submission time; in particular TRUNK_OPEN
at speed 1 always yields the moving-vehicle error and CLIMATE_ON at 9 %
battery always yields the battery-too-low error. -/
theorem send_command_state_validation (oracle : List (Nat × Bool))
    (now : Nat) (st : EngineState) (c : RemoteCommand) :
    ((∃ e, sendCommand oracle now st c = .error e) ↔
      (((c.command_type = .climate_on ∨ c.command_type = .set_temp) ∧
          st.vehicle.battery_soc < 10) ∨
        (c.command_type = .climate_on ∧ st.vehicle.climate_on = true) ∨
        (c.command_type = .climate_off ∧ st.vehicle.climate_on = false) ∨
        ((c.command_type = .trunk_open ∨ c.command_type = .frunk_open) ∧
          0 < st.vehicle.speed_mph) ∨
        (c.command_type = .lock ∧ st.vehicle.lock_status = .locked) ∨
        (c.command_type = .unlock ∧ st.vehicle.lock_status = .unlocked))) ∧
    (c.command_type = .trunk_open → st.vehicle.speed_mph = 1 →
      sendCommand oracle now st c =
        .error "Cannot open trunk/frunk while vehicle is moving") ∧
    (c.command_type = .climate_on → st.vehicle.battery_soc = 9 →
      sendCommand oracle now st c =
        .error "Battery too low (<10%) for climate control") := by
  refine ⟨?_, ?_, ?_⟩
  · simp only [sendCommand_error_iff]
    unfold validateCommand
    split_ifs with h1 h2 h3 h4 h5 h6 <;> simp_all
  · intro hty hsp
    rw [sendCommand_error_iff]
    unfold validateCommand
    rw [if_neg (by simp [hty]), if_neg (by simp [hty]),
      if_neg (by simp [hty]), if_pos (by exact ⟨Or.inl hty, by rw [hsp]; norm_num⟩)]
  · intro hty hsoc
    rw [sendCommand_error_iff]
    unfold validateCommand
    rw [if_pos (by exact ⟨Or.inl hty, by rw [hsoc]; norm_num⟩)]

/-- Witness for `send_command_state_validation`: TRUNK_OPEN on a vehicle
moving at 1 mph. -/
theorem send_command_state_validation_witness :
    (({ command_id := 2, command_type := .trunk_open } :
        RemoteCommand).command_type = CommandType.trunk_open ∧
      ({ vehicle := { battery_soc := 50, speed_mph := 1 } } :
        EngineState).vehicle.speed_mph = 1) ∧
    sendCommand [] 0 { vehicle := { battery_soc := 50, speed_mph := 1 } }
        { command_id := 2, command_type := .trunk_open } =
      .error "Cannot open trunk/frunk while vehicle is moving" :=
  ⟨⟨rfl, rfl⟩,
    (send_command_state_validation [] 0
      { vehicle := { battery_soc := 50, speed_mph := 1 } }
      { command_id := 2, command_type := .trunk_open }).2.1 rfl rfl⟩

/-- The ghost execution log of the drain loop: `_execute_next` executes the
waiting commands exactly in queue order, appending their ids to the log. -/
lemma executeNext_log (oracle : List (Nat × Bool)) (now : Nat)
    (st : EngineState) :
    (executeNext oracle now st).log =
      st.log ++ st.queue.queue.map (fun c => c.command_id) := by
  induction oracle, now, st using executeNext.induct with
  | case1 oracle now st hq =>
    rw [executeNext.eq_def]
    split <;> simp_all
  | case2 oracle now st c rest hq q1 draw r st1 hempty =>
    rw [executeNext.eq_def]
    split
    · simp_all
    next c' rest' heq =>
      rw [hq] at heq
      injection heq with h1 h2
      subst h1; subst h2
      simp_all [CommandQueue.is_empty, CommandQueue.set_executing]
      have h0 : rest = [] := hempty
      subst h0
      simp
  | case3 oracle now st c rest hq q1 draw r st1 hne ih =>
    rw [executeNext.eq_def]
    split
    · simp_all
    next c' rest' heq =>
      rw [hq] at heq
      injection heq with h1 h2
      subst h1; subst h2
      simp_all [CommandQueue.is_empty, CommandQueue.set_executing]
      rw [if_neg (show ¬rest = [] from hne)]
      exact ih

/-- Recording an outcome for one command leaves every other id's history
entry untouched. -/
lemma lookupHistory_updateHistory_ne (h : List (Nat × RemoteCommand))
    (c : RemoteCommand) (id : Nat) (hne : c.command_id ≠ id) :
    lookupHistory (updateHistory h c) id = lookupHistory h id := by
  induction h with
  | nil => simp [updateHistory, lookupHistory, hne, Ne.symm hne]
  | cons kv rest ih =>
    obtain ⟨k, v⟩ := kv
    by_cases hk : k = c.command_id
    · subst hk
      simp [updateHistory, lookupHistory, hne, Ne.symm hne]
    · simp [updateHistory, lookupHistory, hk, ih]

/-- `mark_success`/`mark_failed` never change a command's id. -/
lemma executeCommand_id (vs : VehicleState) (c : RemoteCommand)
    (delay now : Nat) :
    (executeCommand vs c delay now).2.command_id = c.command_id := by
  unfold executeCommand
  rcases h : executeCommandCore vs c with ⟨vs1, e⟩
  cases e <;> simp [RemoteCommand.mark_failed, RemoteCommand.mark_success]

/-- One execution attempt never changes the executed command's id. -/
lemma executeOne_id (vs : VehicleState) (c : RemoteCommand) (delay : Nat)
    (s : Bool) (now : Nat) :
    (executeOne vs c delay s now).2.command_id = c.command_id := by
  cases s <;> simp [executeOne, RemoteCommand.mark_failed, executeCommand_id]

lemma executeNext_history_of_not_mem (oracle : List (Nat × Bool)) (now : Nat)
    (st : EngineState) (id : Nat)
    (h : id ∉ st.queue.queue.map (fun c => c.command_id)) :
    lookupHistory (executeNext oracle now st).history id =
      lookupHistory st.history id := by
  induction oracle, now, st using executeNext.induct with
  | case1 oracle now st hq =>
    rw [executeNext.eq_def]
    split <;> simp_all
  | case2 oracle now st c rest hq q1 draw r st1 hempty =>
    rw [executeNext.eq_def]
    split
    · simp_all
    next c' rest' heq =>
      rw [hq] at heq
      injection heq with h1 h2
      subst h1; subst h2
      rw [hq] at h
      simp only [List.map_cons, List.mem_cons, not_or] at h
      have hid : c.command_id ≠ id := Ne.symm h.1
      simp_all [CommandQueue.is_empty, CommandQueue.set_executing]
      have h0 : rest = [] := hempty
      subst h0
      rw [if_pos rfl]
      refine lookupHistory_updateHistory_ne st.history _ id ?_
      rw [executeOne_id]
      exact hid
  | case3 oracle now st c rest hq q1 draw r st1 hne ih =>
    rw [executeNext.eq_def]
    split
    · simp_all
    next c' rest' heq =>
      rw [hq] at heq
      injection heq with h1 h2
      subst h1; subst h2
      rw [hq] at h
      simp only [List.map_cons, List.mem_cons, not_or] at h
      have hid : c.command_id ≠ id := Ne.symm h.1
      have hmem := h.2
      simp_all [CommandQueue.is_empty, CommandQueue.set_executing]
      rw [if_neg (show ¬rest = [] from hne)]
      have ih' := ih hmem
      refine ih'.trans (lookupHistory_updateHistory_ne st.history _ id ?_)
      rw [executeOne_id]
      exact hid

/-- C1: commands execute strictly in submission order, one at a time.  The
drain loop executes the queued commands exactly in queue order (clause 1);
a command submitted to an empty queue is executed within the same
`send_command` call (clause 2); a command submitted while others are
pending is only appended to the queue and waits (clause 3, the returned
state shows nothing was executed). -/
theorem fifo_execution :
    (∀ (oracle : List (Nat × Bool)) (now : Nat) (st : EngineState),
      (executeNext oracle now st).log =
        st.log ++ st.queue.queue.map (fun c => c.command_id)) ∧
    (∀ (oracle : List (Nat × Bool)) (now : Nat) (st : EngineState)
        (c : RemoteCommand),
      validateCommand st.vehicle c = .ok () → st.queue.queue = [] →
      ∃ st', sendCommand oracle now st c = .ok st' ∧
        st'.log = st.log ++ [c.command_id]) ∧
    (∀ (oracle : List (Nat × Bool)) (now : Nat) (st : EngineState)
        (c : RemoteCommand),
      validateCommand st.vehicle c = .ok () → st.queue.queue ≠ [] →
      sendCommand oracle now st c = .ok
        { st with queue := st.queue.enqueue c,
                  history := updateHistory st.history c }) := by
  refine ⟨executeNext_log, ?_, ?_⟩
  · intro oracle now st c hv hq
    refine ⟨executeNext oracle now
      { st with queue := st.queue.enqueue c,
                history := updateHistory st.history c }, ?_, ?_⟩
    · unfold sendCommand
      rw [hv]
      rw [if_pos (by simp [CommandQueue.enqueue, CommandQueue.size, hq])]
    · rw [executeNext_log]
      simp [CommandQueue.enqueue, hq]
  · intro oracle now st c hv hq
    unfold sendCommand
    rw [hv]
    rw [if_neg (by simp [CommandQueue.enqueue, CommandQueue.size, hq])]

/-- Witness for `fifo_execution`: a LOCK command sent to an idle engine is
executed immediately and alone. -/
theorem fifo_execution_witness :
    (validateCommand ({ vehicle := { battery_soc := 50 } } :
        EngineState).vehicle { command_id := 3, command_type := .lock } =
      .ok () ∧
      ({ vehicle := { battery_soc := 50 } } : EngineState).queue.queue = []) ∧
    ∃ st', sendCommand [(1200, true)] 4 { vehicle := { battery_soc := 50 } }
        { command_id := 3, command_type := .lock } = .ok st' ∧
      st'.log = ([] : List Nat) ++ [3] :=
  ⟨⟨rfl, rfl⟩,
    fifo_execution.2.1 [(1200, true)] 4 { vehicle := { battery_soc := 50 } }
      { command_id := 3, command_type := .lock } rfl rfl⟩

/-- When the given id matches a waiting command, the scan reports success. -/
lemma removeFirstById_found (l : List RemoteCommand) (id : Nat)
    (h : id ∈ l.map (fun c => c.command_id)) :
    (removeFirstById l id).1 = true := by
  induction l with
  | nil => simp at h
  | cons c rest ih =>
    simp only [List.map_cons, List.mem_cons] at h
    by_cases hc : c.command_id = id
    · simp [removeFirstById, hc]
    · rcases h with h | h
      · exact absurd h.symm hc
      · simp [removeFirstById, hc, ih h]

/-- After removing id from a duplicate-free queue, id is gone. -/
lemma removeFirstById_not_mem (l : List RemoteCommand) (id : Nat)
    (h : (l.map (fun c => c.command_id)).Nodup) :
    id ∉ ((removeFirstById l id).2.map (fun c => c.command_id)) := by
  induction l with
  | nil => simp [removeFirstById]
  | cons c rest ih =>
    simp only [List.map_cons, List.nodup_cons] at h
    by_cases hc : c.command_id = id
    · subst hc
      simp [removeFirstById, h.1]
    · simp only [removeFirstById, hc, if_false]
      simp only [List.map_cons, List.mem_cons, not_or]
      exact ⟨fun he => hc he.symm, ih h.2⟩

/-- When the in-flight slot does not hold the id, `remove_by_id` is the
waiting-list scan with the executing slot untouched. -/
lemma remove_by_id_not_executing (q : CommandQueue) (id : Nat)
    (h : ∀ e, q.executing = some e → e.command_id ≠ id) :
    q.remove_by_id id = ((removeFirstById q.queue id).1,
      { q with queue := (removeFirstById q.queue id).2 }) := by
  unfold CommandQueue.remove_by_id
  cases he : q.executing with
  | none => rfl
  | some e =>
    simp [h e he]

/-- C9: the in-flight command cannot be cancelled — `cancel_command`
returns `false` leaving queue, in-flight slot and the whole engine state
unchanged (clause 1); a still-waiting command is removed with `true`
(clause 2); and once removed from a duplicate-free queue the command is
never executed by the drain loop, so its history record — the PENDING
record stored at submission — never changes (clauses 3 and 4). -/
theorem cancellation_spec :
    (∀ (st : EngineState) (e : RemoteCommand) (id : Nat),
      st.queue.executing = some e → e.command_id = id →
      cancelCommand st id = (false, st)) ∧
    (∀ (st : EngineState) (id : Nat),
      (∀ e, st.queue.executing = some e → e.command_id ≠ id) →
      id ∈ st.queue.queue.map (fun c => c.command_id) →
      (cancelCommand st id).1 = true ∧
      (cancelCommand st id).2 = { st with queue :=
        { st.queue with queue := (removeFirstById st.queue.queue id).2 } }) ∧
    (∀ (l : List RemoteCommand) (id : Nat),
      (l.map (fun c => c.command_id)).Nodup →
      id ∉ ((removeFirstById l id).2.map (fun c => c.command_id))) ∧
    (∀ (st : EngineState) (id : Nat) (c : RemoteCommand)
        (oracle : List (Nat × Bool)) (now : Nat),
      (st.queue.queue.map (fun c => c.command_id)).Nodup →
      (∀ e, st.queue.executing = some e → e.command_id ≠ id) →
      lookupHistory st.history id = some c →
      lookupHistory (executeNext oracle now (cancelCommand st id).2).history
          id = some c) := by
  refine ⟨?_, ?_, removeFirstById_not_mem, ?_⟩
  · intro st e id he hid
    unfold cancelCommand CommandQueue.remove_by_id
    rw [he]
    simp [hid]
  · intro st id h hmem
    unfold cancelCommand
    rw [remove_by_id_not_executing st.queue id h]
    exact ⟨removeFirstById_found st.queue.queue id hmem, rfl⟩
  · intro st id c oracle now hnd h hl
    unfold cancelCommand
    rw [remove_by_id_not_executing st.queue id h]
    rw [executeNext_history_of_not_mem]
    · exact hl
    · exact removeFirstById_not_mem st.queue.queue id hnd

/-- Witness for `cancellation_spec`: cancelling the in-flight command is
refused with no side effects. -/
theorem cancellation_spec_witness :
    (c9Engine.queue.executing = some c9Exec ∧ c9Exec.command_id = 9) ∧
    cancelCommand c9Engine 9 = (false, c9Engine) :=
  ⟨⟨rfl, rfl⟩, cancellation_spec.1 c9Engine c9Exec 9 rfl rfl⟩

/-- Rounding to two decimals preserves nonnegativity. -/
lemma round2_nonneg (x : ℚ) (hx : 0 ≤ x) : 0 ≤ round2 x := by
  unfold round2
  have h : (0 : ℤ) ≤ round (x * 100) := by
    rw [round_eq, Int.le_floor]
    push_cast
    linarith
  exact div_nonneg (by exact_mod_cast h) (by norm_num)

/-- The climate battery-drain estimate is never negative. -/
lemma estimate_drain_nonneg (cs : ClimateSettings) (t : ℚ) :
    0 ≤ cs.estimate_battery_drain_per_10min t := by
  unfold ClimateSettings.estimate_battery_drain_per_10min
  split
  · exact le_refl 0
  · apply round2_nonneg
    have h1 : (0 : ℚ) ≤ min (|cs.target_temp_celsius - t| * 0.15) 2 :=
      le_min (by positivity) (by norm_num)
    split_ifs <;> linarith

/-- No branch of `_execute_command`'s mutation table writes `battery_soc`. -/
lemma executeCommandCore_soc (vs : VehicleState) (c : RemoteCommand) :
    (executeCommandCore vs c).1.battery_soc = vs.battery_soc := by
  unfold executeCommandCore
  cases c.command_type
  case lock => rfl
  case unlock => rfl
  case climate_on =>
    cases c.parameters.target_temp with
    | none => rfl
    | some t =>
      by_cases hT : (15 : ℚ) ≤ t ∧ t ≤ 28 <;>
        simp [ClimateSettings.set_temperature, hT]
  case climate_off => rfl
  case set_temp =>
    cases c.parameters.target_temp with
    | none => rfl
    | some t =>
      by_cases hT : (15 : ℚ) ≤ t ∧ t ≤ 28 <;>
        simp [ClimateSettings.set_temperature, hT]
  case seat_heat =>
    cases seatHeatLevelOfString (c.parameters.level.getD "off") with
    | error e => rfl
    | ok lv =>
      by_cases h1 : c.parameters.seat.getD "front_left" = "front_left"
      · simp [h1]
      · by_cases h2 : c.parameters.seat.getD "front_left" = "front_right"
        · simp [h1, h2]
        · by_cases h3 : c.parameters.seat.getD "front_left" = "rear"
          · simp [h1, h2, h3]
          · simp [h1, h2, h3]
  case steering_heat => rfl
  case defrost =>
    by_cases h1 : c.parameters.position.getD "front" = "front"
    · simp [h1]
    · by_cases h2 : c.parameters.position.getD "front" = "rear"
      · simp [h1, h2]
      · simp [h1, h2]
  case trunk_open => rfl
  case frunk_open => rfl
  case honk_flash => rfl

/-- The CLIMATE_ON activation drain keeps the SoC within [0, 100]. -/
lemma applyClimateDrain_bounds (vs : VehicleState) (delay : Nat)
    (h0 : 0 ≤ vs.battery_soc) (h1 : vs.battery_soc ≤ 100) :
    0 ≤ (applyClimateDrain vs delay).battery_soc ∧
      (applyClimateDrain vs delay).battery_soc ≤ 100 := by
  unfold applyClimateDrain
  have hd : 0 ≤ vs.climate_settings.estimate_battery_drain_per_10min
      vs.cabin_temp_celsius := estimate_drain_nonneg _ _
  have hdrain : (0 : ℚ) ≤ vs.climate_settings.estimate_battery_drain_per_10min
      vs.cabin_temp_celsius * ((delay : ℚ) / 1000) / 600 := by positivity
  refine ⟨le_max_left 0 _, max_le (by norm_num) (by linarith)⟩

/-- One execution attempt keeps the shared SoC within [0, 100]. -/
lemma executeOne_soc_bounds (vs : VehicleState) (c : RemoteCommand)
    (delay : Nat) (s : Bool) (now : Nat)
    (h0 : 0 ≤ vs.battery_soc) (h1 : vs.battery_soc ≤ 100) :
    0 ≤ (executeOne vs c delay s now).1.battery_soc ∧
      (executeOne vs c delay s now).1.battery_soc ≤ 100 := by
  cases s with
  | false => exact ⟨by simpa [executeOne], by simpa [executeOne]⟩
  | true =>
    have hcore := executeCommandCore_soc vs c
    simp only [executeOne, if_pos, executeCommand]
    rcases hc : executeCommandCore vs c with ⟨vs1, e⟩
    rw [hc] at hcore
    simp only at hcore
    cases e with
    | some err => simpa [hcore] using ⟨h0, h1⟩
    | none =>
      by_cases hty : c.command_type = CommandType.climate_on
      · simp only [hty, if_pos]
        have := applyClimateDrain_bounds vs1 delay (by rw [hcore]; exact h0)
          (by rw [hcore]; exact h1)
        simpa using this
      · simp only [if_neg hty]
        simpa [hcore] using ⟨h0, h1⟩

/-- The charging curve never yields a negative rate. -/
lemma calculateChargingRate_nonneg (soc m : ℚ) (hm : 0 ≤ m) :
    0 ≤ calculateChargingRate soc m := by
  unfold calculateChargingRate
  split_ifs <;> linarith

/-- A charging tick from below the target never lowers the SoC and never
overshoots the target. -/
lemma chargingNewSoc_bounds (cap m target soc : ℚ) (hcap : 0 < cap)
    (hm : 0 ≤ m) (hlt : soc < target) :
    soc ≤ chargingNewSoc cap m target soc ∧
      chargingNewSoc cap m target soc ≤ target := by
  unfold chargingNewSoc
  have hr := calculateChargingRate_nonneg soc m hm
  have hinc : 0 ≤ calculateChargingRate soc m / 3600 / cap * 100 := by
    positivity
  exact ⟨le_min (le_of_lt hlt) (by linarith), min_le_left _ _⟩

/-- C3: every state reachable from a vehicle state with SoC in [0, 100] by
command executions and charging ticks keeps `battery_soc` in [0, 100]
(clause 1); and during an active session a tick of `_simulate_charging`
never lowers the session's `current_soc` and clamps it to the target
(clause 2). -/
theorem soc_bounds_invariant :
    (∀ vs vs' : VehicleState, Reach vs vs' → 0 ≤ vs.battery_soc →
      vs.battery_soc ≤ 100 →
      0 ≤ vs'.battery_soc ∧ vs'.battery_soc ≤ 100) ∧
    (∀ (st : ChargingState) (s : ChargingSession),
      0 < st.battery_capacity_kwh → 0 ≤ st.max_charging_rate_kw →
      st.vehicle.battery_soc < s.target_soc →
      s.current_soc = st.vehicle.battery_soc →
      ∃ s', (tickState st s).current_session = some s' ∧
        s.current_soc ≤ s'.current_soc ∧ s'.current_soc ≤ s.target_soc ∧
        (tickState st s).vehicle.battery_soc = s'.current_soc) := by
  constructor
  · intro vs vs' hr h0 h1
    induction hr with
    | refl => exact ⟨h0, h1⟩
    | cmd vs' c delay success now h ih =>
      exact executeOne_soc_bounds vs' c delay success now ih.1 ih.2
    | tick vs' capacity max_rate target h hcap hrate htgt hguard ih =>
      have hb := chargingNewSoc_bounds capacity max_rate target
        vs'.battery_soc hcap hrate hguard
      exact ⟨le_trans ih.1 hb.1, le_trans hb.2 htgt⟩
  · intro st s hcap hrate hguard hcur
    have hm : (0 : ℚ) ≤ if locationIsFast s.location = true
        then st.max_charging_rate_kw else 11 := by
      split_ifs with hf
      · exact hrate
      · norm_num
    have hb := chargingNewSoc_bounds st.battery_capacity_kwh
      (if locationIsFast s.location = true then st.max_charging_rate_kw
        else 11) s.target_soc st.vehicle.battery_soc hcap hm hguard
    refine ⟨_, rfl, ?_, ?_, rfl⟩
    · rw [hcur]
      simpa [tickState] using hb.1
    · simpa [tickState] using hb.2

/-- Witness for `soc_bounds_invariant`: one successful LOCK execution from
SoC 50. -/
theorem soc_bounds_invariant_witness :
    ((0 : ℚ) ≤ ({ battery_soc := 50 } : VehicleState).battery_soc ∧
      ({ battery_soc := 50 } : VehicleState).battery_soc ≤ 100) ∧
    (0 ≤ (executeOne { battery_soc := 50 }
        { command_id := 1, command_type := .lock } 1000 true 1).1.battery_soc ∧
      (executeOne { battery_soc := 50 }
        { command_id := 1, command_type := .lock } 1000 true
          1).1.battery_soc ≤ 100) :=
  ⟨⟨by norm_num, by norm_num⟩,
    soc_bounds_invariant.1 { battery_soc := 50 } _
      (Reach.cmd _ _ { command_id := 1, command_type := .lock } 1000 true 1
        (Reach.refl _))
      (by norm_num) (by norm_num)⟩

/-- The full case analysis of `start_charging` under a sane service
configuration; shared by the C7 and C8 theorems. -/
lemma start_charging_cases (st : ChargingState) (t : ℤ) (loc : String)
    (now : Nat) (h0 : 0 ≤ st.vehicle.battery_soc)
    (h100 : st.vehicle.battery_soc ≤ 100)
    (hrate : 0 ≤ st.max_charging_rate_kw) :
    ((∃ e, start_charging st t loc now = .error e) ↔
      st.vehicle.is_plugged_in = false ∨
      (∃ s, st.current_session = some s ∧ s.is_active = true) ∨
      ¬(st.vehicle.battery_soc < (t : ℚ) ∧ (t : ℚ) ≤ 100)) ∧
    (∀ (st' : ChargingState) (s : ChargingSession),
      start_charging st t loc now = .ok (st', s) →
      s.is_active = true ∧ s.start_soc = st.vehicle.battery_soc ∧
      s.current_soc = st.vehicle.battery_soc ∧ s.target_soc = (t : ℚ) ∧
      s.location = loc ∧ st'.current_session = some s ∧
      st'.stop_charging_flag = false ∧ st'.vehicle = st.vehicle ∧
      st'.battery_capacity_kwh = st.battery_capacity_kwh ∧
      st'.max_charging_rate_kw = st.max_charging_rate_kw ∧
      st'.sessions_history = st.sessions_history) := by
  by_cases hplug : st.vehicle.is_plugged_in = false
  · rw [show start_charging st t loc now =
        .error "Vehicle must be plugged in to start charging" by
      unfold start_charging; rw [if_pos hplug]]
    refine ⟨⟨fun _ => Or.inl hplug, fun _ => ⟨_, rfl⟩⟩, ?_⟩
    intro st' s h
    simp at h
  by_cases hact : (match st.current_session with
      | some s => s.is_active
      | none => false) = true
  · rw [show start_charging st t loc now =
        .error "Charging session already active" by
      unfold start_charging; rw [if_neg hplug, if_pos hact]]
    have hex : ∃ s, st.current_session = some s ∧ s.is_active = true := by
      cases hc : st.current_session with
      | none => rw [hc] at hact; simp at hact
      | some s => rw [hc] at hact; exact ⟨s, rfl, hact⟩
    refine ⟨⟨fun _ => Or.inr (Or.inl hex), fun _ => ⟨_, rfl⟩⟩, ?_⟩
    intro st' s h
    simp at h
  by_cases htgt : ¬(1 ≤ t ∧ t ≤ 100)
  · rw [show start_charging st t loc now =
        .error "target_soc must be between 1 and 100" by
      unfold start_charging; rw [if_neg hplug, if_neg hact, if_pos htgt]]
    have hr : ¬(st.vehicle.battery_soc < (t : ℚ) ∧ (t : ℚ) ≤ 100) := by
      rintro ⟨hlt, hle100⟩
      apply htgt
      constructor
      · have h0t : (0 : ℚ) < (t : ℚ) := lt_of_le_of_lt h0 hlt
        exact_mod_cast h0t
      · exact_mod_cast hle100
    refine ⟨⟨fun _ => Or.inr (Or.inr hr), fun _ => ⟨_, rfl⟩⟩, ?_⟩
    intro st' s h
    simp at h
  rw [not_not] at htgt
  by_cases hle : (t : ℚ) ≤ st.vehicle.battery_soc
  · rw [show start_charging st t loc now =
        .error "target_soc must be greater than current SoC" by
      unfold start_charging
      rw [if_neg hplug, if_neg hact, if_neg (not_not_intro htgt), if_pos hle]]
    have hr : ¬(st.vehicle.battery_soc < (t : ℚ) ∧ (t : ℚ) ≤ 100) :=
      fun h => absurd h.1 (not_lt.mpr hle)
    refine ⟨⟨fun _ => Or.inr (Or.inr hr), fun _ => ⟨_, rfl⟩⟩, ?_⟩
    intro st' s h
    simp at h
  · have hvolt : (0 : ℚ) ≤ (if locationIsFast loc = true then 400 else 240) := by
      split_ifs <;> norm_num
    have hmr : (0 : ℚ) ≤ (if locationIsFast loc = true
        then st.max_charging_rate_kw else 11) := by
      split_ifs with hf
      · exact hrate
      · norm_num
    have hcr := calculateChargingRate_nonneg st.vehicle.battery_soc _ hmr
    have ht0 : (0 : ℚ) ≤ (t : ℚ) := by
      have h1 : (1 : ℤ) ≤ t := htgt.1
      have h1q : (1 : ℚ) ≤ (t : ℚ) := by exact_mod_cast h1
      linarith
    have ht100 : (t : ℚ) ≤ 100 := by exact_mod_cast htgt.2
    have hmain : start_charging st t loc now = .ok
        ({ st with
            current_session := some
              { start_time := now, start_soc := st.vehicle.battery_soc,
                current_soc := st.vehicle.battery_soc, target_soc := (t : ℚ),
                charging_rate_kw := calculateChargingRate
                  st.vehicle.battery_soc
                  (if locationIsFast loc = true
                    then st.max_charging_rate_kw else 11),
                voltage := if locationIsFast loc = true then 400 else 240,
                amperage := calculateChargingRate st.vehicle.battery_soc
                    (if locationIsFast loc = true
                      then st.max_charging_rate_kw else 11) * 1000 /
                  (if locationIsFast loc = true then 400 else 240),
                location := loc },
            stop_charging_flag := false },
          { start_time := now, start_soc := st.vehicle.battery_soc,
            current_soc := st.vehicle.battery_soc, target_soc := (t : ℚ),
            charging_rate_kw := calculateChargingRate st.vehicle.battery_soc
              (if locationIsFast loc = true
                then st.max_charging_rate_kw else 11),
            voltage := if locationIsFast loc = true then 400 else 240,
            amperage := calculateChargingRate st.vehicle.battery_soc
                (if locationIsFast loc = true
                  then st.max_charging_rate_kw else 11) * 1000 /
              (if locationIsFast loc = true then 400 else 240),
            location := loc }) := by
      unfold start_charging
      rw [if_neg hplug, if_neg hact, if_neg (not_not_intro htgt), if_neg hle]
      unfold mkChargingSession
      have hb : (0 : ℚ) ≤ st.vehicle.battery_soc ∧
          st.vehicle.battery_soc ≤ 100 := ⟨h0, h100⟩
      have hbt : (0 : ℚ) ≤ (t : ℚ) ∧ (t : ℚ) ≤ 100 := ⟨ht0, ht100⟩
      simp only [if_neg (not_not_intro hb), if_neg (not_not_intro hbt),
        if_neg (not_lt.mpr hcr), if_neg (not_lt.mpr hvolt),
        if_neg (lt_irrefl (0 : ℚ))]
    rw [hmain]
    constructor
    · constructor
      · rintro ⟨e, he⟩
        simp at he
      · rintro (h | ⟨s, hs, hsa⟩ | h)
        · exact absurd h hplug
        · rw [hs] at hact
          simp only [not_true_eq_false] at hact
          exact absurd hsa hact
        · exact absurd ⟨not_le.mp hle, ht100⟩ h
    · intro st' s h
      simp only [Except.ok.injEq, Prod.mk.injEq] at h
      obtain ⟨hst', hs⟩ := h
      subst hst'
      subst hs
      exact ⟨rfl, rfl, rfl, rfl, rfl, rfl, rfl, rfl, rfl, rfl, rfl⟩

/-- C8: under a sane service configuration (SoC in [0, 100], nonnegative
rated power), `start_charging(target)` raises exactly when the vehicle is
unplugged, a session is already active, or the target is not in
`(battery_soc, 100]`; otherwise it installs and returns a fresh active
session whose start and current SoC equal the vehicle's SoC and whose
target is the requested one. -/
theorem start_charging_spec (st : ChargingState) (t : ℤ) (loc : String)
    (now : Nat) (h0 : 0 ≤ st.vehicle.battery_soc)
    (h100 : st.vehicle.battery_soc ≤ 100)
    (hrate : 0 ≤ st.max_charging_rate_kw) :
    ((∃ e, start_charging st t loc now = .error e) ↔
      st.vehicle.is_plugged_in = false ∨
      (∃ s, st.current_session = some s ∧ s.is_active = true) ∨
      ¬(st.vehicle.battery_soc < (t : ℚ) ∧ (t : ℚ) ≤ 100)) ∧
    (∀ (st' : ChargingState) (s : ChargingSession),
      start_charging st t loc now = .ok (st', s) →
      s.is_active = true ∧ s.start_soc = st.vehicle.battery_soc ∧
      s.current_soc = st.vehicle.battery_soc ∧ s.target_soc = (t : ℚ) ∧
      s.location = loc ∧ st'.current_session = some s ∧
      st'.stop_charging_flag = false ∧ st'.vehicle = st.vehicle ∧
      st'.battery_capacity_kwh = st.battery_capacity_kwh ∧
      st'.max_charging_rate_kw = st.max_charging_rate_kw ∧
      st'.sessions_history = st.sessions_history) :=
  start_charging_cases st t loc now h0 h100 hrate

/-- Witness for `start_charging_spec`: starting a session to 80 % from
50 % on a plugged-in, idle service raises no error. -/
theorem start_charging_spec_witness :
    ((0 : ℚ) ≤ c8State.vehicle.battery_soc ∧
      c8State.vehicle.battery_soc ≤ 100 ∧
      (0 : ℚ) ≤ c8State.max_charging_rate_kw) ∧
    ¬∃ e, start_charging c8State 80 "Home Charger" 0 = Except.error e := by
  refine ⟨⟨by norm_num [c8State], by norm_num [c8State],
    by norm_num [c8State]⟩, fun h => ?_⟩
  rcases (start_charging_spec c8State 80 "Home Charger" 0
      (by norm_num [c8State]) (by norm_num [c8State])
      (by norm_num [c8State])).1.mp h with h1 | ⟨s, hs, _⟩ | h3
  · exact absurd h1 (by simp [c8State])
  · exact absurd hs (by simp [c8State])
  · exact h3 (by norm_num [c8State])

/-- Continuous progress: while each tick from below the target adds at
least δ of SoC, a loop given enough fuel reaches the target, sets the stop
flag, and keeps the session (target, activity) and the history intact. -/
lemma loop_reaches (delta : ℚ) (hd : 0 < delta) :
    ∀ (fuel : Nat) (st : ChargingState) (s : ChargingSession),
    st.current_session = some s →
    st.stop_charging_flag = false →
    (∀ x : ℚ, x < s.target_soc →
      delta ≤ calculateChargingRate x (if locationIsFast s.location = true
          then st.max_charging_rate_kw else 11) / 3600 /
        st.battery_capacity_kwh * 100) →
    s.target_soc - st.vehicle.battery_soc ≤ fuel * delta →
    ∃ s', (simulateChargingLoop (fuel + 1) st).current_session = some s' ∧
      s'.target_soc = s.target_soc ∧ s'.is_active = s.is_active ∧
      (simulateChargingLoop (fuel + 1) st).stop_charging_flag = true ∧
      (simulateChargingLoop (fuel + 1) st).sessions_history =
        st.sessions_history ∧
      s.target_soc ≤ (simulateChargingLoop (fuel + 1) st).vehicle.battery_soc := by
  intro fuel
  induction fuel with
  | zero =>
    intro st s hs hflag hinc hfuel
    have hge : s.target_soc ≤ st.vehicle.battery_soc := by
      have : s.target_soc - st.vehicle.battery_soc ≤ 0 := by simpa using hfuel
      linarith
    refine ⟨s, ?_, rfl, rfl, ?_, ?_, ?_⟩ <;>
      simp [simulateChargingLoop, hflag, hs, hge]
  | succ n ih =>
    intro st s hs hflag hinc hfuel
    by_cases hreach : s.target_soc ≤ st.vehicle.battery_soc
    · refine ⟨s, ?_, rfl, rfl, ?_, ?_, ?_⟩ <;>
        simp [simulateChargingLoop, hflag, hs, hreach]
    · push_neg at hreach
      have hstep : simulateChargingLoop (n + 1 + 1) st =
          simulateChargingLoop (n + 1) (tickState st s) := by
        have hnotge : ¬st.vehicle.battery_soc ≥ s.target_soc :=
          not_le.mpr hreach
        simp [simulateChargingLoop, hflag, hs, hnotge]
      have hinc0 := hinc st.vehicle.battery_soc hreach
      have hfuel' : s.target_soc - (tickState st s).vehicle.battery_soc ≤
          n * delta := by
        have hnew : (tickState st s).vehicle.battery_soc =
            min s.target_soc (st.vehicle.battery_soc +
              calculateChargingRate st.vehicle.battery_soc
                  (if locationIsFast s.location = true
                    then st.max_charging_rate_kw else 11) / 3600 /
                st.battery_capacity_kwh * 100) := rfl
        rcases le_total (st.vehicle.battery_soc +
            calculateChargingRate st.vehicle.battery_soc
                (if locationIsFast s.location = true
                  then st.max_charging_rate_kw else 11) / 3600 /
              st.battery_capacity_kwh * 100) s.target_soc with hcase | hcase
        · rw [hnew, min_eq_right hcase]
          have : (n : ℚ) + 1 = ((n + 1 : Nat) : ℚ) := by push_cast; ring
          have hexp : s.target_soc - st.vehicle.battery_soc ≤
              (n + 1 : Nat) * delta := hfuel
          push_cast at hexp
          linarith
        · rw [hnew, min_eq_left hcase]
          have hn : (0 : ℚ) ≤ (n : ℚ) := by positivity
          nlinarith
      obtain ⟨s', h1, h2, h3, h4, h5, h6⟩ :=
        ih (tickState st s) _ rfl hflag hinc hfuel'
      rw [hstep]
      exact ⟨s', h1, h2, h3, h4, h5, h6⟩

/-- The appended session always survives the keep-last-50 trim. -/
lemma mem_saveSession (hist : List ChargingSession) (s : ChargingSession) :
    s ∈ saveSession hist s := by
  unfold saveSession
  have hk : (hist ++ [s]).length - 50 ≤ hist.length := by
    simp only [List.length_append, List.length_singleton]
    omega
  rw [List.drop_append_of_le_length hk]
  exact List.mem_append_right _ (List.mem_singleton.mpr rfl)

/-- The auto-stop tail of `_simulate_charging`: when the loop ends with the
target reached and the session still installed, the session is finalized
(`is_active := false`, `end_time := now`), archived, and the active-session
slot cleared; the vehicle state is untouched by finalization. -/
lemma simulateCharging_finalizes (fuel now : Nat) (st : ChargingState)
    (s' : ChargingSession)
    (h1 : (simulateChargingLoop fuel st).current_session = some s')
    (h2 : s'.target_soc ≤ (simulateChargingLoop fuel st).vehicle.battery_soc) :
    (simulateCharging fuel now st).current_session = none ∧
    (simulateCharging fuel now st).sessions_history =
      saveSession (simulateChargingLoop fuel st).sessions_history
        { s' with is_active := false, end_time := some now } ∧
    (simulateCharging fuel now st).vehicle =
      (simulateChargingLoop fuel st).vehicle := by
  unfold simulateCharging
  have h2' : (simulateChargingLoop fuel st).vehicle.battery_soc ≥
      s'.target_soc := h2
  simp only [h1, if_pos h2']
  simp

/-- C7: when the charging loop brings the SoC up to the session's target,
the session auto-completes with no `stop_charging` call: the loop exits
with the stop flag set, the session is finalized inactive with its end
time set, archived to the history, and the active-session slot cleared
(clause 1, via `simulateCharging_finalizes`); concretely,
`start_charging(80)` from SoC 79.8 on either charger kind terminates
within 60 ticks with the session gone and the SoC at least 80 % (clause
2). -/
theorem charging_auto_complete :
    (∀ (fuel now : Nat) (st : ChargingState) (s' : ChargingSession),
      (simulateChargingLoop fuel st).current_session = some s' →
      s'.target_soc ≤ (simulateChargingLoop fuel st).vehicle.battery_soc →
      (simulateCharging fuel now st).current_session = none ∧
      { s' with is_active := false, end_time := some now } ∈
        (simulateCharging fuel now st).sessions_history) ∧
    (∀ (st : ChargingState) (loc : String) (nowS nowE : Nat),
      st.vehicle.battery_soc = 79.8 → st.vehicle.is_plugged_in = true →
      st.current_session = none → st.battery_capacity_kwh = 82 →
      st.max_charging_rate_kw = 250 →
      ∃ (st1 : ChargingState) (s : ChargingSession),
        start_charging st 80 loc nowS = .ok (st1, s) ∧
        (simulateCharging 60 nowE st1).current_session = none ∧
        80 ≤ (simulateCharging 60 nowE st1).vehicle.battery_soc ∧
        ∃ s', s' ∈ (simulateCharging 60 nowE st1).sessions_history ∧
          s'.is_active = false ∧ s'.end_time = some nowE) := by
  constructor
  · intro fuel now st s' h1 h2
    obtain ⟨hnone, hhist, _⟩ := simulateCharging_finalizes fuel now st s' h1 h2
    refine ⟨hnone, ?_⟩
    rw [hhist]
    exact mem_saveSession _ _
  · intro st loc nowS nowE hsoc hplug hsess hcap hmax
    rcases hok : start_charging st 80 loc nowS with e | p
    · exfalso
      rcases (start_charging_cases st 80 loc nowS
          (by rw [hsoc]; norm_num) (by rw [hsoc]; norm_num)
          (by rw [hmax]; norm_num)).1.mp ⟨e, hok⟩ with h | ⟨s0, hs0, _⟩ | h
      · rw [hplug] at h
        simp at h
      · rw [hsess] at hs0
        simp at hs0
      · refine h ⟨?_, by norm_num⟩
        rw [hsoc]
        norm_num
    · obtain ⟨st1, s⟩ := p
      obtain ⟨hact, hstart, hcur, htgt, hlocn, hsess1, hflag1, hveh,
          hcapn, hmaxn, hhist1⟩ :=
        (start_charging_cases st 80 loc nowS
          (by rw [hsoc]; norm_num) (by rw [hsoc]; norm_num)
          (by rw [hmax]; norm_num)).2 st1 s hok
      have htgt80 : s.target_soc = 80 := by rw [htgt]; norm_num
      have hsoc1 : st1.vehicle.battery_soc = 79.8 := by rw [hveh, hsoc]
      have hcap1 : st1.battery_capacity_kwh = 82 := by rw [hcapn, hcap]
      have hmax1 : st1.max_charging_rate_kw = 250 := by rw [hmaxn, hmax]
      by_cases hfast : locationIsFast loc = true
      · have hinc : ∀ x : ℚ, x < s.target_soc → (475/5904 : ℚ) ≤
            calculateChargingRate x (if locationIsFast s.location = true
                then st1.max_charging_rate_kw else 11) / 3600 /
              st1.battery_capacity_kwh * 100 := by
          intro x hx
          rw [htgt80] at hx
          rw [hlocn, if_pos hfast, hmax1, hcap1]
          unfold calculateChargingRate
          split_ifs with h1 h2 h3 <;> first | norm_num | linarith
        have hfuel : s.target_soc - st1.vehicle.battery_soc ≤
            (59 : Nat) * (475/5904 : ℚ) := by
          rw [htgt80, hsoc1]
          norm_num
        obtain ⟨s', hs', htgt', hact', hflag', hhist', hsoc'⟩ :=
          loop_reaches (475/5904) (by norm_num) 59 st1 s hsess1 hflag1
            hinc hfuel
        have hs'60 : (simulateChargingLoop 60 st1).current_session =
            some s' := hs'
        have hge : s'.target_soc ≤
            (simulateChargingLoop 60 st1).vehicle.battery_soc := by
          rw [htgt']
          exact hsoc'
        obtain ⟨hnone, hhfin, hvfin⟩ :=
          simulateCharging_finalizes 60 nowE st1 s' hs'60 hge
        refine ⟨st1, s, rfl, hnone, ?_, ?_⟩
        · rw [hvfin]
          calc (80 : ℚ) = s.target_soc := htgt80.symm
          _ ≤ (simulateChargingLoop 60 st1).vehicle.battery_soc := hsoc'
        · refine ⟨{ s' with is_active := false, end_time := some nowE },
            ?_, rfl, rfl⟩
          rw [hhfin]
          exact mem_saveSession _ _
      · have hinc : ∀ x : ℚ, x < s.target_soc → (209/59040 : ℚ) ≤
            calculateChargingRate x (if locationIsFast s.location = true
                then st1.max_charging_rate_kw else 11) / 3600 /
              st1.battery_capacity_kwh * 100 := by
          intro x hx
          rw [htgt80] at hx
          rw [hlocn, if_neg hfast, hcap1]
          unfold calculateChargingRate
          split_ifs with h1 h2 h3 <;> first | norm_num | linarith
        have hfuel : s.target_soc - st1.vehicle.battery_soc ≤
            (59 : Nat) * (209/59040 : ℚ) := by
          rw [htgt80, hsoc1]
          norm_num
        obtain ⟨s', hs', htgt', hact', hflag', hhist', hsoc'⟩ :=
          loop_reaches (209/59040) (by norm_num) 59 st1 s hsess1 hflag1
            hinc hfuel
        have hs'60 : (simulateChargingLoop 60 st1).current_session =
            some s' := hs'
        have hge : s'.target_soc ≤
            (simulateChargingLoop 60 st1).vehicle.battery_soc := by
          rw [htgt']
          exact hsoc'
        obtain ⟨hnone, hhfin, hvfin⟩ :=
          simulateCharging_finalizes 60 nowE st1 s' hs'60 hge
        refine ⟨st1, s, rfl, hnone, ?_, ?_⟩
        · rw [hvfin]
          calc (80 : ℚ) = s.target_soc := htgt80.symm
          _ ≤ (simulateChargingLoop 60 st1).vehicle.battery_soc := hsoc'
        · refine ⟨{ s' with is_active := false, end_time := some nowE },
            ?_, rfl, rfl⟩
          rw [hhfin]
          exact mem_saveSession _ _

/-- Witness for `charging_auto_complete`: the 79.8 % → 80 % scenario at a
home (L2) charger. -/
theorem charging_auto_complete_witness :
    (c7State.vehicle.battery_soc = 79.8 ∧
      c7State.vehicle.is_plugged_in = true ∧
      c7State.current_session = none ∧
      c7State.battery_capacity_kwh = 82 ∧
      c7State.max_charging_rate_kw = 250) ∧
    ∃ (st1 : ChargingState) (s : ChargingSession),
      start_charging c7State 80 "Home Charger" 0 = .ok (st1, s) ∧
      (simulateCharging 60 1 st1).current_session = none ∧
      80 ≤ (simulateCharging 60 1 st1).vehicle.battery_soc ∧
      ∃ s', s' ∈ (simulateCharging 60 1 st1).sessions_history ∧
        s'.is_active = false ∧ s'.end_time = some 1 :=
  ⟨⟨rfl, rfl, rfl, rfl, rfl⟩,
    charging_auto_complete.2 c7State "Home Charger" 0 1 rfl rfl rfl rfl rfl⟩

end SEProject
